import Mathlib

/-!
Shallow embedding of the zencoder account-pool scheduler
(src/internal/service/pool.go, scheduler.go, anthropic.go, gemini.go and
src/internal/model/account.go).

Conventions of the embedding:
* timestamps are `Int` values counting seconds; Go's
  `time.Time` zero value is modelled as `0`, `a.After b` as `a > b`,
  `a.Before b` as `a < b`, one hour as `3600`, and the "next UTC midnight"
  computation of `UpdateAccountCreditsFromResponse` as integer arithmetic
  on seconds;
* float64 counters are modelled as `ℚ` (the claims only use exact small
  values, where float arithmetic is exact);
* an HTTP header value (`resp.Header.Get`) is a `String`, empty when the
  header is absent, exactly as in Go; `fmt.Sscanf("%f", …)` is modelled by
  `parseFloat` below (a string with no leading decimal number yields `0`,
  as `Sscanf` leaves the output variable untouched);
* the RFC3339 parse of `Zen-Pricing-Period-End` is modelled by the
  three-way `TimeHeader` type (absent header / non-empty but unparseable /
  parsed timestamp), since the claims only distinguish those outcomes.
-/

namespace Zencoder



/-- model.PlanLimits (src/internal/model/account.go); `PlanType` is a Go
string type, and a lookup of an unknown plan in the Go map yields the zero
value `0`. -/
def planLimit : String → ℚ
  | "Free" => 30
  | "Starter" => 280
  | "Core" => 750
  | "Advanced" => 1900
  | "Max" => 4200
  | _ => 0

/-- model.Account restricted to the fields read or written by the pool
scheduler, the credit ledger and the daily reset job. -/
structure Account where
  id : Nat
  status : String
  category : String
  planType : String
  isActive : Bool
  isCooling : Bool
  coolingUntil : Int
  creditRefreshTime : Int
  banReason : String
  rateLimitHits : Nat
  dailyUsed : ℚ
  totalUsed : ℚ
  lastUsed : Int
  errorCount : Nat
  lastResetDate : String
  deriving DecidableEq, Repr

/-- model.CanUseModel: Advanced and Max may use every model; other plans
may not use PremiumOnly models.  The catalog lookup `GetZenModel` is
abstracted into the predicate `premiumOnly` (a missing model gives the Go
zero value, i.e. `premiumOnly = false`). -/
def canUseModel (premiumOnly : String → Bool) (planType modelID : String) : Bool :=
  if planType = "Advanced" ∨ planType = "Max" then true
  else !premiumOnly modelID

/-- Digit run at the front of a character list. -/
def leadingDigits (cs : List Char) : List Char :=
  cs.takeWhile Char.isDigit

def digitsToNat (ds : List Char) : Nat :=
  ds.foldl (fun a c => 10 * a + (c.toNat - 48)) 0

/-- Leading decimal mantissa of a character list: its value and whether at
least one digit was consumed. -/
def parseMantissa (cs : List Char) : ℚ × Bool :=
  let intPart := leadingDigits cs
  let rest := cs.dropWhile Char.isDigit
  match rest with
  | '.' :: rest2 =>
    let fracPart := leadingDigits rest2
    ((digitsToNat intPart : ℚ) + (digitsToNat fracPart : ℚ) / ((10 : ℚ) ^ fracPart.length),
      !intPart.isEmpty || !fracPart.isEmpty)
  | _ => ((digitsToNat intPart : ℚ), !intPart.isEmpty)

/-- parseFloat (pool.go): `fmt.Sscanf(s, "%f", &val)` with the error
ignored — the empty string and any string without a leading signed decimal
number yield `0`.  Exponent notation is not modelled (no claim uses it). -/
def parseFloat (s : String) : ℚ :=
  if s = "" then 0
  else
    match s.data with
    | '-' :: rest =>
      let r := parseMantissa rest
      if r.2 then -r.1 else 0
    | '+' :: rest =>
      let r := parseMantissa rest
      if r.2 then r.1 else 0
    | cs =>
      let r := parseMantissa cs
      if r.2 then r.1 else 0

/-- Outcome of `time.Parse(time.RFC3339, resp.Header.Get("Zen-Pricing-Period-End"))`:
the header is absent (empty string), present but unparseable, or parses to
a timestamp. -/
inductive TimeHeader where
  | absent
  | malformed
  | parsed (t : Int)
  deriving DecidableEq, Repr

/-- The four upstream cost-telemetry headers read by the ledger. -/
structure RespHeaders where
  periodLimit : String
  periodCost : String
  requestCost : String
  periodEnd : TimeHeader
  deriving DecidableEq, Repr

/-- The "cool until tomorrow 00:00 UTC" computation of
`UpdateAccountCreditsFromResponse`: add 24h and truncate to the UTC day. -/
def nextUtcMidnight (now : Int) : Int :=
  ((now + 86400) / 86400) * 86400

/-- UseCredit (pool.go:599): add the synthetic weight to both counters,
refresh `last_used`, and mark the account cooling when the daily counter
reaches the plan limit.  Note that this function does not touch
`cooling_until`. -/
def useCredit (acc : Account) (multiplier : ℚ) (now : Int) : Account :=
  let a := { acc with
    dailyUsed := acc.dailyUsed + multiplier
    totalUsed := acc.totalUsed + multiplier
    lastUsed := now }
  if a.dailyUsed ≥ planLimit a.planType then
    { a with isCooling := true, status := "cooling", category := "cooling",
             banReason := "Daily quota exceeded" }
  else a

/-- pool.maxErrs, set in init(). -/
def maxErrs : Nat := 3

/-- MarkAccountError (pool.go:421). -/
def markAccountError (acc : Account) : Account :=
  let a := { acc with errorCount := acc.errorCount + 1 }
  if a.errorCount ≥ maxErrs then
    { a with isActive := false, status := "error", category := "error",
             banReason := "Error count exceeded limit" }
  else a

/-- ResetAccountError (pool.go:593). -/
def resetAccountError (acc : Account) : Account :=
  { acc with errorCount := 0 }

/-- MarkAccountRateLimited (pool.go:433): regular 429, one hour cooldown. -/
def markAccountRateLimited (acc : Account) (now : Int) : Account :=
  { acc with
    rateLimitHits := acc.rateLimitHits + 1
    isCooling := true
    isActive := false
    coolingUntil := now + 3600
    status := "cooling"
    category := "cooling"
    banReason := "Rate limited (429)" }

/-- MarkAccountRateLimitedShort (pool.go:534): five second cooldown. -/
def markAccountRateLimitedShort (acc : Account) (now : Int) : Account :=
  { acc with
    rateLimitHits := acc.rateLimitHits + 1
    isCooling := true
    isActive := false
    coolingUntil := now + 5
    status := "cooling"
    category := "cooling"
    banReason := "Rate limited (429) - short cooling" }

/-- The quota-exhaustion test of MarkAccountRateLimitedWithResponse
(pool.go:471-480): both headers non-empty, parsed limit positive, parsed
cost at least the limit. -/
def quotaExhausted429 (h : RespHeaders) : Bool :=
  decide (h.periodLimit ≠ "" ∧ h.periodCost ≠ "" ∧
    0 < parseFloat h.periodLimit ∧ parseFloat h.periodLimit ≤ parseFloat h.periodCost)

/-- MarkAccountRateLimitedWithResponse (pool.go:458): a nil response falls
back to the regular handler; otherwise a quota-exhausted 429 with a parsed
period end cools until that timestamp (also recording it as the credit
refresh time), and every other case cools for one hour. -/
def markAccountRateLimitedWithResponse (acc : Account) (resp : Option RespHeaders)
    (now : Int) : Account :=
  match resp with
  | none => markAccountRateLimited acc now
  | some h =>
    let a := { acc with
      rateLimitHits := acc.rateLimitHits + 1
      isCooling := true
      isActive := false
      status := "cooling"
      category := "cooling" }
    if quotaExhausted429 h then
      match h.periodEnd with
      | TimeHeader.parsed t =>
        { a with coolingUntil := t, creditRefreshTime := t,
                 banReason := "Quota exhausted (429)" }
      | TimeHeader.malformed =>
        { a with coolingUntil := now + 3600,
                 banReason := "Quota exhausted (429) - fallback cooling" }
      | TimeHeader.absent =>
        { a with coolingUntil := now + 3600,
                 banReason := "Quota exhausted (429) - no end time" }
    else
      { a with coolingUntil := now + 3600, banReason := "Rate limited (429)" }

/-- UpdateAccountCreditsFromResponse (pool.go:617), the observed-cost
("applyObservedCost") ledger path.  Faithful to the Go control flow: the
request-cost header contributes only when positive, the period-cost header
overwrites `daily_used` only when its parse is non-negative, a parsed
period end always updates `credit_refresh_time`, and when neither header
contributed the call degrades to synthetic `useCredit` accounting. -/
def updateAccountCreditsFromResponse (acc : Account) (resp : Option RespHeaders)
    (modelMultiplier : ℚ) (now : Int) : Account :=
  let acc0 := { acc with lastUsed := now }
  match resp with
  | none => useCredit acc0 modelMultiplier now
  | some h =>
    let creditUsed : ℚ :=
      if h.requestCost ≠ "" ∧ 0 < parseFloat h.requestCost then parseFloat h.requestCost else 0
    let hasFromRequest : Bool := decide (h.requestCost ≠ "" ∧ 0 < parseFloat h.requestCost)
    let hasFromPeriod : Bool := decide (h.periodCost ≠ "" ∧ 0 ≤ parseFloat h.periodCost)
    let acc1 := if h.periodCost ≠ "" ∧ 0 ≤ parseFloat h.periodCost then
        { acc0 with dailyUsed := parseFloat h.periodCost } else acc0
    let coolingEndTime : Int :=
      match h.periodEnd with
      | TimeHeader.parsed t => t
      | _ => 0
    let acc2 :=
      match h.periodEnd with
      | TimeHeader.parsed t => { acc1 with creditRefreshTime := t }
      | _ => acc1
    if hasFromRequest || hasFromPeriod then
      let acc3 := if 0 < creditUsed then
          { acc2 with totalUsed := acc2.totalUsed + creditUsed } else acc2
      if acc3.dailyUsed ≥ planLimit acc3.planType then
        let acc4 := { acc3 with
          isCooling := true
          status := "cooling"
          category := "cooling"
          banReason := "Daily quota exceeded" }
        if coolingEndTime ≠ 0 then { acc4 with coolingUntil := coolingEndTime }
        else { acc4 with coolingUntil := nextUtcMidnight now }
      else acc3
    else useCredit acc2 modelMultiplier now

/-- recoverCoolingAccounts (pool.go:401), restricted to one account: a
cooling account whose cooldown has elapsed (UTC clock) is restored to
normal and its ban reason cleared. -/
def recoverCoolingAccount (acc : Account) (nowUTC : Int) : Account :=
  if acc.status = "cooling" ∧ acc.coolingUntil < nowUTC then
    { acc with isCooling := false, isActive := true, category := "normal",
               status := "normal", banReason := "" }
  else acc

/-- ResetAllCredits (scheduler.go:27), restricted to one account: zero the
daily counter, clear the cooling flag and record the reset date, but only
for accounts not already reset on `today` (the server-local date string). -/
def resetAccountCredits (acc : Account) (today : String) : Account :=
  if acc.lastResetDate ≠ today then
    { acc with dailyUsed := 0, isCooling := false, lastResetDate := today }
  else acc

/-- The next firing instant computed by StartCreditResetScheduler
(scheduler.go:14-18): today 09:09:00 in the server's local clock, pushed to
tomorrow when already past.  `now` counts seconds of the local clock. -/
def schedulerNextReset (now : Int) : Int :=
  if now > (now / 86400) * 86400 + (9 * 3600 + 9 * 60) then
    (now / 86400) * 86400 + (9 * 3600 + 9 * 60) + 86400
  else
    (now / 86400) * 86400 + (9 * 3600 + 9 * 60)

/-! ## Selector / admission control (GetNextAccountForModel, pool.go:255) -/

/-- AccountStatus (pool.go:240): the ephemeral runtime entry of one
account. -/
structure AccountStatus where
  lastUsed : Int
  inUse : Bool
  frozenUntil : Int
  inUseSince : Int
  deriving DecidableEq, Repr

/-- The accountStatuses map, keyed by account ID. -/
abbrev Statuses := Nat → Option AccountStatus

def setStatus (st : Statuses) (k : Nat) (s : AccountStatus) : Statuses :=
  fun j => if j = k then some s else st j

/-- Lazy initialisation of a runtime entry (pool.go:277-284). -/
def initStatus (acc : Account) : AccountStatus :=
  { lastUsed := acc.lastUsed
    inUse := false
    frozenUntil := acc.coolingUntil
    inUseSince := 0 }

/-- First pass of GetNextAccountForModel (pool.go:266-299): walk the cached
accounts in order, skip those whose plan may not use the model (no runtime
entry is created for them), lazily initialise missing runtime entries,
force-release an entry held in use for more than 30 seconds, and collect as
candidates the accounts that are neither in use nor frozen.  Returns the
updated status table together with the candidate list. -/
def collectCandidates (premiumOnly : String → Bool) (modelID : String) (now : Int) :
    List Account → Statuses → Statuses × List Account
  | [], st => (st, [])
  | acc :: rest, st =>
    if modelID ≠ "" ∧ canUseModel premiumOnly acc.planType modelID = false then
      collectCandidates premiumOnly modelID now rest st
    else
      let s0 := (st acc.id).getD (initStatus acc)
      let s1 := if s0.inUse ∧ s0.inUseSince ≠ 0 ∧ now - s0.inUseSince > 30 then
          { s0 with inUse := false, inUseSince := 0 } else s0
      let r := collectCandidates premiumOnly modelID now rest (setStatus st acc.id s1)
      if s1.inUse = false ∧ now > s1.frozenUntil then (r.1, acc :: r.2) else r

/-- The `last_used` of an account's runtime entry, `0` when the entry is
missing (only used under an `isSome` hypothesis). -/
def statusLastUsed (st : Statuses) (acc : Account) : Int :=
  match st acc.id with
  | some s => s.lastUsed
  | none => 0

/-- Selection loop of GetNextAccountForModel (pool.go:331-353): entries
without runtime state are skipped, the first never-used candidate
(`last_used` zero) wins outright, otherwise the running strictly-oldest
`last_used` wins. -/
def selectGo (st : Statuses) : List Account → Option Account → Int → Option Account
  | [], sel, _ => sel
  | acc :: rest, sel, oldest =>
    match st acc.id with
    | none => selectGo st rest sel oldest
    | some s =>
      if s.lastUsed = 0 then some acc
      else if s.lastUsed < oldest then selectGo st rest (some acc) s.lastUsed
      else selectGo st rest sel oldest

/-- The LRU pick over the candidate list; `oldestTime` starts at the
current instant (pool.go:333). -/
def selectLRU (st : Statuses) (now : Int) (cands : List Account) : Option Account :=
  selectGo st cands none now

/-- Marking the winner in use (pool.go:361-375). -/
def markSelected (st : Statuses) (now : Int) (accId : Nat) : Statuses :=
  match st accId with
  | some s => setStatus st accId { s with inUse := true, lastUsed := now, inUseSince := now }
  | none => setStatus st accId
      { lastUsed := now, inUse := true, frozenUntil := 0, inUseSince := now }

/-- The two user-visible selector errors (ErrNoAvailableAccount,
ErrNoPermission). -/
inductive PoolErr where
  | noAvailableAccount
  | noPermission
  deriving DecidableEq, Repr

instance {ε α : Type _} [DecidableEq ε] [DecidableEq α] : DecidableEq (Except ε α) := fun x y => by
  cases x <;> cases y
  case error.error a b => exact decidable_of_iff (a = b) (by simp)
  case error.ok a b => exact isFalse (by simp)
  case ok.error a b => exact isFalse (by simp)
  case ok.ok a b => exact decidable_of_iff (a = b) (by simp)

/-- Tail of GetNextAccountForModel after the candidate pass
(pool.go:301-382): an empty candidate list yields ErrNoPermission; the LRU
pick wins, with a pseudo-random index (`tick` models
`time.Now().UnixNano()`) as fallback; the winner is marked in use. -/
def acquireFrom (st : Statuses) (now : Int) (tick : Nat) (cands : List Account) :
    Except PoolErr Account × Statuses :=
  match cands with
  | [] => (Except.error PoolErr.noPermission, st)
  | c :: cs =>
    let selected := (selectLRU st now (c :: cs)).getD ((c :: cs).getD (tick % (cs.length + 1)) c)
    (Except.ok selected, markSelected st now selected.id)

/-- GetNextAccountForModel (pool.go:255): an empty pool-cache snapshot
yields ErrNoAvailableAccount before anything else; otherwise the candidate
pass and the selection tail run. -/
def getNextAccountForModel (premiumOnly : String → Bool) (modelID : String)
    (accounts : List Account) (st : Statuses) (now : Int) (tick : Nat) :
    Except PoolErr Account × Statuses :=
  match accounts with
  | [] => (Except.error PoolErr.noAvailableAccount, st)
  | a :: rest =>
    let r := collectCandidates premiumOnly modelID now (a :: rest) st
    acquireFrom r.1 now tick r.2

/-- ReleaseAccount (pool.go:386): clear the in-use markers; a missing entry
is a no-op. -/
def releaseAccount (st : Statuses) (accId : Nat) : Statuses :=
  match st accId with
  | some s => setStatus st accId { s with inUse := false, inUseSince := 0 }
  | none => st

/-! ## Failover orchestrator exhaustion errors (anthropic.go:480-502,
gemini.go:112-113) -/

/-- The retry-loop error classifications assigned to `lastErr` inside the
orchestrator loops: the non-official-429 marker, the rate-limit-tracking
marker, the "API error: <status>" classification carrying only the
upstream status code, and a transport error carrying the Go error text of
a failed outbound call. -/
inductive RetryErr where
  | nonOfficial429
  | rateLimitTracking
  | apiError (code : Nat)
  | transport (msg : String)
  deriving DecidableEq, Repr

/-- The `Error()` text of each classification, from the `fmt.Errorf`
format strings in the source. -/
def retryErrMsg : RetryErr → String
  | RetryErr.nonOfficial429 => "non-official 429 error"
  | RetryErr.rateLimitTracking => "rate limit tracking problem"
  | RetryErr.apiError code => "API error: " ++ toString code
  | RetryErr.transport msg => msg

def hasPrefixChars : List Char → List Char → Bool
  | [], _ => true
  | _ :: _, [] => false
  | a :: as, b :: bs => a = b && hasPrefixChars as bs

/-- Contiguous-sublist test over characters (second argument inside
first). -/
def hasSubChars : List Char → List Char → Bool
  | _, [] => true
  | [], _ :: _ => false
  | c :: rest, sub => hasPrefixChars sub (c :: rest) || hasSubChars rest sub

/-- strings.Contains. -/
def containsSub (s sub : String) : Bool :=
  hasSubChars s.data sub.data

/-- The network-error sniffing of anthropic.go:492-497. -/
def isNetworkErr (m : String) : Bool :=
  containsSub m "dial tcp" || containsSub m "connection refused" ||
  containsSub m "no such host" || containsSub m "cannot assign requested address" ||
  containsSub m "timeout" || containsSub m "network is unreachable"

/-- The error value an orchestrator returns once its retry budget is
exhausted: either the package-level ErrNoAvailableAccount or the
"all retries failed" wrapper around the last classification. -/
inductive FinalErr where
  | noAvailableAccount
  | allRetriesFailed (inner : RetryErr)
  deriving DecidableEq, Repr

/-- AnthropicService.Messages exhaustion path (anthropic.go:488-502): a
last error whose text looks like a network failure collapses to
ErrNoAvailableAccount; anything else is wrapped. -/
def anthropicExhaustResult (lastErr : RetryErr) : FinalErr :=
  if isNetworkErr (retryErrMsg lastErr) then FinalErr.noAvailableAccount
  else FinalErr.allRetriesFailed lastErr

/-- GeminiService.GenerateContent exhaustion path (gemini.go:112-113): the
last error is always wrapped. -/
def geminiExhaustResult (lastErr : RetryErr) : FinalErr :=
  FinalErr.allRetriesFailed lastErr

/-- The user-visible `Error()` text of the exhaustion result
(ErrNoAvailableAccount is errors.New of the fixed message below). -/
def finalErrMsg : FinalErr → String
  | FinalErr.noAvailableAccount => "没有可用token"
  | FinalErr.allRetriesFailed e => "all retries failed: " ++ retryErrMsg e

/-! ## Concrete fixtures used by the counterexamples and witnesses -/

/-- A model catalog in which no model is premium-only. -/
def noPremium : String → Bool := fun _ => false

/-- The runtime status table right after process start. -/
def emptyStatuses : Statuses := fun _ => none

/-- A fresh Free-tier account, eligible and never in error. -/
def accA : Account :=
  { id := 1, status := "normal", category := "normal", planType := "Free",
    isActive := true, isCooling := false, coolingUntil := 0, creditRefreshTime := 0,
    banReason := "", rateLimitHits := 0, dailyUsed := 0, totalUsed := 0,
    lastUsed := 100, errorCount := 0, lastResetDate := "" }

/-- A second eligible account with a more recent `last_used`. -/
def accB : Account := { accA with id := 2, lastUsed := 200 }

/-- A runtime status table where both fixture accounts are idle with their
persisted `last_used` values. -/
def stAB : Statuses :=
  setStatus (setStatus emptyStatuses 1
    { lastUsed := 100, inUse := false, frozenUntil := 0, inUseSince := 0 }) 2
    { lastUsed := 200, inUse := false, frozenUntil := 0, inUseSince := 0 }

/-! ## Theorems -/

lemma acquireFrom_ne_noAvailable (st : Statuses) (now : Int) (tick : Nat)
    (cands : List Account) :
    (acquireFrom st now tick cands).1 ≠ Except.error PoolErr.noAvailableAccount := by
  cases cands <;> simp [acquireFrom]

/-- C1 counterexample: against a two-account pool whose accounts are both
marked in use (the state reached after two successful acquires at the same
instant), a third acquire returns ErrNoPermission, not
ErrNoAvailableAccount as the claim's scenario expects. -/
theorem busy_pool_third_acquire_noPermission :
    (getNextAccountForModel noPremium "m" [accA, accB] emptyStatuses 1000 0).1
      = Except.ok accA
    ∧ (getNextAccountForModel noPremium "m" [accA, accB]
        (getNextAccountForModel noPremium "m" [accA, accB] emptyStatuses 1000 0).2 1000 0).1
      = Except.ok accB
    ∧ (getNextAccountForModel noPremium "m" [accA, accB]
        (getNextAccountForModel noPremium "m" [accA, accB]
          (getNextAccountForModel noPremium "m" [accA, accB] emptyStatuses 1000 0).2 1000 0).2
        1000 0).1
      = Except.error PoolErr.noPermission
    ∧ (getNextAccountForModel noPremium "m" [accA, accB]
        (getNextAccountForModel noPremium "m" [accA, accB]
          (getNextAccountForModel noPremium "m" [accA, accB] emptyStatuses 1000 0).2 1000 0).2
        1000 0).1
      ≠ Except.error PoolErr.noAvailableAccount := by
  refine ⟨by decide, by decide, by decide, by decide⟩

/-- C1 (amended): acquire returns ErrNoAvailableAccount exactly when the
pool-cache snapshot is empty, and when the snapshot is non-empty but the
plan-permission filter and the in-use/frozen runtime checks eliminate
every account, it returns ErrNoPermission — in particular a fully-busy
non-empty pool yields ErrNoPermission. -/
theorem getNextAccountForModel_error_dichotomy (premiumOnly : String → Bool)
    (modelID : String) (accounts : List Account) (st : Statuses) (now : Int) (tick : Nat) :
    ((getNextAccountForModel premiumOnly modelID accounts st now tick).1 =
        Except.error PoolErr.noAvailableAccount ↔ accounts = [])
    ∧ (accounts ≠ [] →
        (collectCandidates premiumOnly modelID now accounts st).2 = [] →
        (getNextAccountForModel premiumOnly modelID accounts st now tick).1 =
          Except.error PoolErr.noPermission) := by
  cases accounts with
  | nil => exact ⟨by simp [getNextAccountForModel], by simp⟩
  | cons a rest =>
    constructor
    · constructor
      · intro hcontra
        exact absurd hcontra (acquireFrom_ne_noAvailable _ _ _ _)
      · intro hcontra
        exact absurd hcontra (by simp)
    · intro _ hc
      show (acquireFrom (collectCandidates premiumOnly modelID now (a :: rest) st).1 now tick
        (collectCandidates premiumOnly modelID now (a :: rest) st).2).1 =
          Except.error PoolErr.noPermission
      rw [hc]
      rfl

/-- C1 witness: a pool with one in-use account has an empty candidate list
and acquire returns ErrNoPermission. -/
theorem getNextAccountForModel_error_dichotomy_witness :
    (getNextAccountForModel noPremium "m" [accA]
      (setStatus emptyStatuses 1
        { lastUsed := 100, inUse := true, frozenUntil := 0, inUseSince := 1000 }) 1000 0).1 =
      Except.error PoolErr.noPermission :=
  (getNextAccountForModel_error_dichotomy noPremium "m" [accA]
    (setStatus emptyStatuses 1
      { lastUsed := 100, inUse := true, frozenUntil := 0, inUseSince := 1000 }) 1000 0).2
    (by decide) (by decide)

lemma selectGo_zero (st : Statuses) :
    ∀ (cands : List Account) (sel : Option Account) (oldest : Int),
      (∃ a ∈ cands, (st a.id).isSome ∧ statusLastUsed st a = 0) →
      ∃ c, selectGo st cands sel oldest = some c ∧ (st c.id).isSome ∧ statusLastUsed st c = 0 := by
  intro cands
  induction cands with
  | nil => intro sel oldest h; simp at h
  | cons a rest ih =>
    intro sel oldest h
    obtain ⟨b, hb, hbs, hbz⟩ := h
    cases hsa : st a.id with
    | none =>
      have hbr : b ∈ rest := by
        rcases List.mem_cons.mp hb with rfl | hbr
        · rw [hsa] at hbs; simp at hbs
        · exact hbr
      have hrec := ih sel oldest ⟨b, hbr, hbs, hbz⟩
      simpa [selectGo, hsa] using hrec
    | some s =>
      by_cases hz : s.lastUsed = 0
      · refine ⟨a, ?_, ?_, ?_⟩
        · simp [selectGo, hsa, hz]
        · simp [hsa]
        · rw [statusLastUsed, hsa]; exact hz
      · have hbr : b ∈ rest := by
          rcases List.mem_cons.mp hb with rfl | hbr
          · rw [statusLastUsed, hsa] at hbz; exact absurd hbz hz
          · exact hbr
        by_cases hlt : s.lastUsed < oldest
        · have hrec := ih (some a) s.lastUsed ⟨b, hbr, hbs, hbz⟩
          simpa [selectGo, hsa, hz, hlt] using hrec
        · have hrec := ih sel oldest ⟨b, hbr, hbs, hbz⟩
          simpa [selectGo, hsa, hz, hlt] using hrec

lemma selectGo_min (st : Statuses) :
    ∀ (cands : List Account) (sel : Option Account) (oldest : Int),
      (∀ a ∈ cands, (st a.id).isSome ∧ statusLastUsed st a ≠ 0) →
      (selectGo st cands sel oldest = sel ∧ ∀ a ∈ cands, oldest ≤ statusLastUsed st a)
      ∨ (∃ c, selectGo st cands sel oldest = some c ∧ c ∈ cands ∧
          statusLastUsed st c < oldest ∧ ∀ a ∈ cands, statusLastUsed st c ≤ statusLastUsed st a) := by
  intro cands
  induction cands with
  | nil => intro sel oldest _; left; exact ⟨rfl, by simp⟩
  | cons a rest ih =>
    intro sel oldest h
    obtain ⟨hsome, hnz⟩ := h a (List.mem_cons_self a rest)
    obtain ⟨s, hsa⟩ := Option.isSome_iff_exists.mp hsome
    have hlu : statusLastUsed st a = s.lastUsed := by rw [statusLastUsed, hsa]
    have hz : ¬ s.lastUsed = 0 := by rw [hlu] at hnz; exact hnz
    have hrest : ∀ b ∈ rest, (st b.id).isSome ∧ statusLastUsed st b ≠ 0 :=
      fun b hb => h b (List.mem_cons_of_mem a hb)
    by_cases hlt : s.lastUsed < oldest
    · rcases ih (some a) s.lastUsed hrest with ⟨heq, hall⟩ | ⟨c, hc, hcm, hclt, hall⟩
      · right
        refine ⟨a, ?_, List.mem_cons_self a rest, ?_, ?_⟩
        · simpa [selectGo, hsa, hz, hlt] using heq
        · rw [hlu]; exact hlt
        · intro b hb
          rcases List.mem_cons.mp hb with rfl | hbr
          · exact le_refl _
          · rw [hlu]; exact hall b hbr
      · right
        refine ⟨c, ?_, List.mem_cons_of_mem a hcm, ?_, ?_⟩
        · simpa [selectGo, hsa, hz, hlt] using hc
        · exact lt_trans (by rw [hlu] at *; exact hclt) hlt
        · intro b hb
          rcases List.mem_cons.mp hb with rfl | hbr
          · rw [hlu]; exact le_of_lt hclt
          · exact hall b hbr
    · rcases ih sel oldest hrest with ⟨heq, hall⟩ | ⟨c, hc, hcm, hclt, hall⟩
      · left
        refine ⟨by simpa [selectGo, hsa, hz, hlt] using heq, ?_⟩
        intro b hb
        rcases List.mem_cons.mp hb with rfl | hbr
        · rw [hlu]; exact le_of_not_lt hlt
        · exact hall b hbr
      · right
        refine ⟨c, ?_, List.mem_cons_of_mem a hcm, hclt, ?_⟩
        · simpa [selectGo, hsa, hz, hlt] using hc
        · intro b hb
          rcases List.mem_cons.mp hb with rfl | hbr
          · rw [hlu]
            exact le_of_lt (lt_of_lt_of_le hclt (le_of_not_lt hlt))
          · exact hall b hbr

/-- C2: among the candidates of an acquire call, a never-used candidate
(runtime `last_used` zero) is selected when one exists; otherwise the
selection returns a candidate whose `last_used` is least among all
candidates (so of any two candidates with different past `last_used`
values the strictly older one wins); and whatever the LRU loop selects is
exactly what the acquire tail returns. -/
theorem acquire_lru_fairness (st : Statuses) (now : Int) (tick : Nat)
    (cands : List Account) :
    ((∃ a ∈ cands, (st a.id).isSome ∧ statusLastUsed st a = 0) →
      ∃ c, selectLRU st now cands = some c ∧ (st c.id).isSome ∧ statusLastUsed st c = 0)
    ∧ ((cands ≠ [] ∧ ∀ a ∈ cands, (st a.id).isSome ∧ statusLastUsed st a ≠ 0 ∧
          statusLastUsed st a < now) →
      ∃ c, selectLRU st now cands = some c ∧ c ∈ cands ∧
        ∀ a ∈ cands, statusLastUsed st c ≤ statusLastUsed st a)
    ∧ (∀ sel, selectLRU st now cands = some sel →
      (acquireFrom st now tick cands).1 = Except.ok sel) := by
  refine ⟨?_, ?_, ?_⟩
  · intro h
    exact selectGo_zero st cands none now h
  · rintro ⟨hne, h⟩
    rcases selectGo_min st cands none now (fun a ha => ⟨(h a ha).1, (h a ha).2.1⟩) with
      ⟨_, hall⟩ | ⟨c, hc, hcm, _, hall⟩
    · cases cands with
      | nil => exact absurd rfl hne
      | cons a rest =>
        have h1 := hall a (List.mem_cons_self a rest)
        have h2 := (h a (List.mem_cons_self a rest)).2.2
        exact absurd h1 (not_le_of_lt h2)
    · exact ⟨c, hc, hcm, hall⟩
  · intro sel hsel
    cases cands with
    | nil => simp [selectLRU, selectGo] at hsel
    | cons c cs => simp [acquireFrom, hsel]

/-- C2 witness: with two idle candidates last used at 100 and 200 and the
clock at 1000, the LRU pick exists, is a member of the candidate list, and
has the minimal runtime `last_used`. -/
theorem acquire_lru_fairness_witness :
    ∃ c, selectLRU stAB 1000 [accA, accB] = some c ∧ c ∈ [accA, accB] ∧
      ∀ a ∈ [accA, accB], statusLastUsed stAB c ≤ statusLastUsed stAB a :=
  (acquire_lru_fairness stAB 1000 0 [accA, accB]).2.1 ⟨by decide, by decide⟩

/-- C3: the quota-exceeded transition of useCredit sets the cooling status
and ban reason but never writes `cooldown_until` — on a Free account at
29/30 a weight-2 call reaches 31 and enters cooling with `cooldown_until`
left at its old value (here the zero time, not the next UTC midnight
86400), so the next recovery pass immediately restores the account to
normal and the quota cooldown is ineffective. -/
theorem useCredit_quota_cooldown_unset :
    (useCredit { accA with dailyUsed := 29 } 2 1000).dailyUsed = 31
    ∧ (useCredit { accA with dailyUsed := 29 } 2 1000).status = "cooling"
    ∧ (useCredit { accA with dailyUsed := 29 } 2 1000).banReason = "Daily quota exceeded"
    ∧ (useCredit { accA with dailyUsed := 29 } 2 1000).coolingUntil = 0
    ∧ (useCredit { accA with dailyUsed := 29 } 2 1000).coolingUntil ≠ nextUtcMidnight 1000
    ∧ (recoverCoolingAccount (useCredit { accA with dailyUsed := 29 } 2 1000) 1001).status
        = "normal" := by
  refine ⟨?_, ?_, ?_, ?_, ?_, ?_⟩ <;>
    norm_num [useCredit, recoverCoolingAccount, accA, planLimit, nextUtcMidnight]

lemma nextUtcMidnight_gt (now : Int) : now < nextUtcMidnight now := by
  have h1 := Int.ediv_add_emod (now + 86400) 86400
  have h2 : (now + 86400) % 86400 < 86400 := Int.emod_lt_of_pos _ (by norm_num)
  have h3 : 0 ≤ (now + 86400) % 86400 := Int.emod_nonneg _ (by norm_num)
  unfold nextUtcMidnight
  nlinarith [h1, h2, h3]

/-- C4 counterexample: a quota-exhausted 429 whose parsed period-end lies
in the past (500, with the transition at 1000) moves the account to
cooling with `cooldown_until = 500`, which is not greater than the
transition time. -/
theorem rateLimited_past_period_end_not_future :
    (markAccountRateLimitedWithResponse accA
      (some { periodLimit := "100", periodCost := "100", requestCost := "",
              periodEnd := TimeHeader.parsed 500 }) 1000).status = "cooling"
    ∧ (markAccountRateLimitedWithResponse accA
      (some { periodLimit := "100", periodCost := "100", requestCost := "",
              periodEnd := TimeHeader.parsed 500 }) 1000).coolingUntil = 500
    ∧ ¬ (1000 : Int) < (markAccountRateLimitedWithResponse accA
      (some { periodLimit := "100", periodCost := "100", requestCost := "",
              periodEnd := TimeHeader.parsed 500 }) 1000).coolingUntil := by
  refine ⟨by decide, by decide, by decide⟩

/-- C4 (amended): a cooling transition leaves `cooldown_until` strictly in
the future for the regular and short 429 handlers and for every
429-with-headers case that does not adopt an upstream period-end
timestamp, and the observed-cost quota transition without a parsed period
end cools until the next UTC midnight, which is strictly in the future;
the invariant does not extend to adopted upstream timestamps (see the
counterexample) nor to useCredit, which never writes `cooldown_until`. -/
theorem cooling_cooldown_future_cases (acc : Account) (now : Int) (h : RespHeaders)
    (mult : ℚ) :
    now < (markAccountRateLimited acc now).coolingUntil
    ∧ now < (markAccountRateLimitedShort acc now).coolingUntil
    ∧ ((∀ t, h.periodEnd ≠ TimeHeader.parsed t) →
        now < (markAccountRateLimitedWithResponse acc (some h) now).coolingUntil)
    ∧ now < nextUtcMidnight now
    ∧ (h.periodEnd = TimeHeader.absent → h.requestCost = "" → h.periodCost ≠ "" →
        0 ≤ parseFloat h.periodCost → planLimit acc.planType ≤ parseFloat h.periodCost →
        (updateAccountCreditsFromResponse acc (some h) mult now).coolingUntil =
          nextUtcMidnight now) := by
  refine ⟨?_, ?_, ?_, nextUtcMidnight_gt now, ?_⟩
  · simp [markAccountRateLimited]
  · simp [markAccountRateLimitedShort]
  · intro hnp
    cases hpe : h.periodEnd with
    | parsed t => exact absurd hpe (hnp t)
    | malformed =>
      by_cases hq : quotaExhausted429 h
      · simp [markAccountRateLimitedWithResponse, hq, hpe]
      · simp [markAccountRateLimitedWithResponse, hq, hpe]
    | absent =>
      by_cases hq : quotaExhausted429 h
      · simp [markAccountRateLimitedWithResponse, hq, hpe]
      · simp [markAccountRateLimitedWithResponse, hq, hpe]
  · intro hpe hrc hpc hge hlim
    simp [updateAccountCreditsFromResponse, hpe, hrc, hpc, hge, hlim]

/-- C4 witness: at time 1000, a regular 429 cools until 4600 > 1000; the
header-less observed-cost quota transition cools until 86400 > 1000. -/
theorem cooling_cooldown_future_cases_witness :
    (1000 : Int) < (markAccountRateLimited accA 1000).coolingUntil
    ∧ (1000 : Int) < (markAccountRateLimitedShort accA 1000).coolingUntil
    ∧ (updateAccountCreditsFromResponse accA
        (some { periodLimit := "", periodCost := "30", requestCost := "",
                periodEnd := TimeHeader.absent }) 1 1000).coolingUntil =
        nextUtcMidnight 1000 :=
  ⟨(cooling_cooldown_future_cases accA 1000
      { periodLimit := "", periodCost := "30", requestCost := "",
        periodEnd := TimeHeader.absent } 1).1,
   (cooling_cooldown_future_cases accA 1000
      { periodLimit := "", periodCost := "30", requestCost := "",
        periodEnd := TimeHeader.absent } 1).2.1,
   (cooling_cooldown_future_cases accA 1000
      { periodLimit := "", periodCost := "30", requestCost := "",
        periodEnd := TimeHeader.absent } 1).2.2.2.2 (by decide) (by decide) (by decide)
      (by decide) (by decide)⟩

/-- C5 counterexample: with `period-limit = 0` and `period-cost = 0` the
parsed cost reaches the parsed limit, yet the code does not treat the 429
as quota-exhausted (it additionally requires a positive limit), so the
parsed period-end 99999 is ignored and the cooldown is the regular
now + 1h = 4600. -/
theorem quota429_zero_limit_counterexample :
    (markAccountRateLimitedWithResponse accA
      (some { periodLimit := "0", periodCost := "0", requestCost := "",
              periodEnd := TimeHeader.parsed 99999 }) 1000).coolingUntil = 4600
    ∧ (markAccountRateLimitedWithResponse accA
      (some { periodLimit := "0", periodCost := "0", requestCost := "",
              periodEnd := TimeHeader.parsed 99999 }) 1000).coolingUntil ≠ 99999
    ∧ parseFloat "0" ≤ parseFloat "0" := by
  refine ⟨by decide, by decide, by decide⟩

/-- C5 (amended): the quota-exhausted 429 classification additionally
requires a positive parsed period-limit; under it a parsed period-end
becomes the cooldown and an absent or malformed period-end falls back to
now + 1h; a regular 429 cools for exactly one hour and a short 429 for
exactly five seconds, all with status cooling. -/
theorem rate_limit_cooldown_values (acc : Account) (now : Int) (h : RespHeaders) :
    ((markAccountRateLimited acc now).coolingUntil = now + 3600
      ∧ (markAccountRateLimited acc now).status = "cooling")
    ∧ ((markAccountRateLimitedShort acc now).coolingUntil = now + 5
      ∧ (markAccountRateLimitedShort acc now).status = "cooling")
    ∧ (quotaExhausted429 h = true ↔
        (h.periodLimit ≠ "" ∧ h.periodCost ≠ "" ∧ 0 < parseFloat h.periodLimit ∧
          parseFloat h.periodLimit ≤ parseFloat h.periodCost))
    ∧ (∀ t, quotaExhausted429 h = true → h.periodEnd = TimeHeader.parsed t →
        (markAccountRateLimitedWithResponse acc (some h) now).coolingUntil = t)
    ∧ ((h.periodEnd = TimeHeader.absent ∨ h.periodEnd = TimeHeader.malformed) →
        (markAccountRateLimitedWithResponse acc (some h) now).coolingUntil = now + 3600)
    ∧ (markAccountRateLimitedWithResponse acc (some h) now).status = "cooling"
    ∧ markAccountRateLimitedWithResponse acc none now = markAccountRateLimited acc now := by
  refine ⟨⟨rfl, rfl⟩, ⟨rfl, rfl⟩, ?_, ?_, ?_, ?_, rfl⟩
  · simp [quotaExhausted429]
  · intro t hq hpe
    simp [markAccountRateLimitedWithResponse, hq, hpe]
  · intro hpe
    by_cases hq : quotaExhausted429 h <;>
      rcases hpe with hpe | hpe <;>
        simp [markAccountRateLimitedWithResponse, hq, hpe]
  · by_cases hq : quotaExhausted429 h
    · cases hpe : h.periodEnd <;> simp [markAccountRateLimitedWithResponse, hq, hpe]
    · simp [markAccountRateLimitedWithResponse, hq]

/-- C5 witness: a quota-exhausted 429 (limit 100, cost 100) with parsed
period-end 7777 cools until exactly 7777. -/
theorem rate_limit_cooldown_values_witness :
    (markAccountRateLimitedWithResponse accA
      (some { periodLimit := "100", periodCost := "100", requestCost := "",
              periodEnd := TimeHeader.parsed 7777 }) 1000).coolingUntil = 7777 :=
  (rate_limit_cooldown_values accA 1000
    { periodLimit := "100", periodCost := "100", requestCost := "",
      periodEnd := TimeHeader.parsed 7777 }).2.2.2.1 7777 (by decide) rfl

/-- C6 counterexample: after three markError calls on a fresh account the
error count is 3; a fourth call does not leave the account unchanged — it
increments the count to 4. -/
theorem fourth_markError_changes_account :
    (markAccountError (markAccountError (markAccountError accA))).errorCount = 3
    ∧ (markAccountError (markAccountError (markAccountError (markAccountError accA)))).errorCount
        = 4
    ∧ markAccountError (markAccountError (markAccountError (markAccountError accA)))
        ≠ markAccountError (markAccountError (markAccountError accA)) := by
  refine ⟨by decide, by decide, by decide⟩

/-- C6 (amended): every markError call increments `error_count` (also past
the ceiling); the third call on a fresh account yields status error and
is_active false with count 3, and a fourth call keeps status error and
is_active false while the count becomes 4; resetError sets the count back
to 0. -/
theorem markError_ceiling_behavior (acc : Account) (h0 : acc.errorCount = 0) :
    (∀ b : Account, (markAccountError b).errorCount = b.errorCount + 1)
    ∧ (markAccountError (markAccountError (markAccountError acc))).status = "error"
    ∧ (markAccountError (markAccountError (markAccountError acc))).isActive = false
    ∧ (markAccountError (markAccountError (markAccountError acc))).errorCount = 3
    ∧ (markAccountError (markAccountError (markAccountError (markAccountError acc)))).status
        = "error"
    ∧ (markAccountError (markAccountError (markAccountError (markAccountError acc)))).isActive
        = false
    ∧ (markAccountError (markAccountError (markAccountError (markAccountError acc)))).errorCount
        = 4
    ∧ (∀ b : Account, (resetAccountError b).errorCount = 0) := by
  have e1 : markAccountError acc = { acc with errorCount := 1 } := by
    simp [markAccountError, h0, maxErrs]
  have e2 : markAccountError { acc with errorCount := 1 } = { acc with errorCount := 2 } := by
    simp [markAccountError, maxErrs]
  have e3 : markAccountError { acc with errorCount := 2 } =
      { acc with errorCount := 3, isActive := false, status := "error", category := "error",
                 banReason := "Error count exceeded limit" } := by
    simp [markAccountError, maxErrs]
  have e4 : markAccountError
      { acc with errorCount := 3, isActive := false, status := "error", category := "error",
                 banReason := "Error count exceeded limit" } =
      { acc with errorCount := 4, isActive := false, status := "error", category := "error",
                 banReason := "Error count exceeded limit" } := by
    simp [markAccountError, maxErrs]
  refine ⟨?_, ?_, ?_, ?_, ?_, ?_, ?_, ?_⟩
  · intro b
    by_cases hb : b.errorCount + 1 ≥ maxErrs <;> simp [markAccountError, hb]
  · rw [e1, e2, e3]
  · rw [e1, e2, e3]
  · rw [e1, e2, e3]
  · rw [e1, e2, e3, e4]
  · rw [e1, e2, e3, e4]
  · rw [e1, e2, e3, e4]
  · intro b
    simp [resetAccountError]

/-- C6 witness: the amended behavior evaluated on the fresh fixture
account. -/
theorem markError_ceiling_behavior_witness :
    (markAccountError (markAccountError (markAccountError accA))).status = "error"
    ∧ (markAccountError (markAccountError (markAccountError accA))).isActive = false :=
  ⟨(markError_ceiling_behavior accA rfl).2.1, (markError_ceiling_behavior accA rfl).2.2.1⟩

lemma update_dailyUsed_of_periodCost (acc : Account) (h : RespHeaders) (mult : ℚ)
    (now : Int) (hpc : h.periodCost ≠ "") (hge : 0 ≤ parseFloat h.periodCost) :
    (updateAccountCreditsFromResponse acc (some h) mult now).dailyUsed =
      parseFloat h.periodCost := by
  cases hpe : h.periodEnd <;>
    by_cases hrc : h.requestCost ≠ "" ∧ 0 < parseFloat h.requestCost <;>
      simp [updateAccountCreditsFromResponse, hpc, hge, hpe, hrc] <;>
        split_ifs <;> simp

lemma update_totalUsed_of_requestCost (acc : Account) (h : RespHeaders) (mult : ℚ)
    (now : Int) (hrc : h.requestCost ≠ "") (hpos : 0 < parseFloat h.requestCost) :
    (updateAccountCreditsFromResponse acc (some h) mult now).totalUsed =
      acc.totalUsed + parseFloat h.requestCost := by
  cases hpe : h.periodEnd <;>
    by_cases hpc : h.periodCost ≠ "" ∧ 0 ≤ parseFloat h.periodCost <;>
      simp [updateAccountCreditsFromResponse, hrc, hpos, hpe, hpc] <;>
        split_ifs <;> simp

lemma update_totalUsed_no_requestCost (acc : Account) (h : RespHeaders) (mult : ℚ)
    (now : Int) (hrc : h.requestCost = "") (hpc : h.periodCost ≠ "")
    (hge : 0 ≤ parseFloat h.periodCost) :
    (updateAccountCreditsFromResponse acc (some h) mult now).totalUsed = acc.totalUsed := by
  cases hpe : h.periodEnd <;>
    simp [updateAccountCreditsFromResponse, hrc, hpc, hge, hpe] <;>
      split_ifs <;> simp

lemma update_synthetic_fallback (acc : Account) (h : RespHeaders) (mult : ℚ)
    (now : Int) (hrc : h.requestCost = "") (hpc : h.periodCost = "") :
    (updateAccountCreditsFromResponse acc (some h) mult now).dailyUsed =
      acc.dailyUsed + mult
    ∧ (updateAccountCreditsFromResponse acc (some h) mult now).totalUsed =
      acc.totalUsed + mult := by
  cases hpe : h.periodEnd <;>
    simp [updateAccountCreditsFromResponse, hrc, hpc, hpe, useCredit] <;>
      split_ifs <;> simp

/-- C7 counterexample: a present but negative period-cost header ("-1",
which parses to -1 < 0) is not written into `daily_used`; with no per-call
cost the call degrades to synthetic accounting instead (10 + 2 = 12). -/
theorem negative_period_cost_not_overwritten :
    (updateAccountCreditsFromResponse { accA with dailyUsed := 10 }
      (some { periodLimit := "", periodCost := "-1", requestCost := "",
              periodEnd := TimeHeader.absent }) 2 1000).dailyUsed = 12
    ∧ (updateAccountCreditsFromResponse { accA with dailyUsed := 10 }
      (some { periodLimit := "", periodCost := "-1", requestCost := "",
              periodEnd := TimeHeader.absent }) 2 1000).dailyUsed ≠ parseFloat "-1" := by
  have hp : parseFloat "-1" = -1 := by decide
  constructor <;>
    norm_num [updateAccountCreditsFromResponse, useCredit, accA, planLimit, hp]

/-- C7 (amended): observed accounting overwrites `daily_used` with the
period-cost value when that header is present and parses to a
non-negative value (a negative parse is ignored); a present positive
request-cost is added to `total_used`; a non-negative period-cost with no
request-cost leaves `total_used` unchanged; and with both headers absent
the call falls back to synthetic accounting of the model weight. -/
theorem observed_cost_accounting (acc : Account) (h : RespHeaders) (mult : ℚ)
    (now : Int) :
    (h.periodCost ≠ "" → 0 ≤ parseFloat h.periodCost →
      (updateAccountCreditsFromResponse acc (some h) mult now).dailyUsed =
        parseFloat h.periodCost)
    ∧ (h.requestCost ≠ "" → 0 < parseFloat h.requestCost →
      (updateAccountCreditsFromResponse acc (some h) mult now).totalUsed =
        acc.totalUsed + parseFloat h.requestCost)
    ∧ (h.requestCost = "" → h.periodCost ≠ "" → 0 ≤ parseFloat h.periodCost →
      (updateAccountCreditsFromResponse acc (some h) mult now).totalUsed = acc.totalUsed)
    ∧ (h.requestCost = "" → h.periodCost = "" →
      (updateAccountCreditsFromResponse acc (some h) mult now).dailyUsed =
        acc.dailyUsed + mult
      ∧ (updateAccountCreditsFromResponse acc (some h) mult now).totalUsed =
        acc.totalUsed + mult) := by
  refine ⟨?_, ?_, ?_, ?_⟩
  · intro hpc hge
    exact update_dailyUsed_of_periodCost acc h mult now hpc hge
  · intro hrc hpos
    exact update_totalUsed_of_requestCost acc h mult now hrc hpos
  · intro hrc hpc hge
    exact update_totalUsed_no_requestCost acc h mult now hrc hpc hge
  · intro hrc hpc
    exact update_synthetic_fallback acc h mult now hrc hpc

/-- C7 witness: period-cost 25 with request-cost 3 overwrites daily_used
to 25 and adds 3 to total_used. -/
theorem observed_cost_accounting_witness :
    (updateAccountCreditsFromResponse accA
      (some { periodLimit := "", periodCost := "25", requestCost := "3",
              periodEnd := TimeHeader.absent }) 1 1000).dailyUsed = parseFloat "25"
    ∧ (updateAccountCreditsFromResponse accA
      (some { periodLimit := "", periodCost := "25", requestCost := "3",
              periodEnd := TimeHeader.absent }) 1 1000).totalUsed =
        accA.totalUsed + parseFloat "3" :=
  ⟨(observed_cost_accounting accA
      { periodLimit := "", periodCost := "25", requestCost := "3",
        periodEnd := TimeHeader.absent } 1 1000).1 (by decide) (by decide),
   (observed_cost_accounting accA
      { periodLimit := "", periodCost := "25", requestCost := "3",
        periodEnd := TimeHeader.absent } 1 1000).2.1 (by decide) (by decide)⟩

/-- C8 counterexample: an observed-cost ledger operation can decrease
`daily_used` within a day — an account at 10 whose response reports a
period cost of 5 ends at 5 < 10. -/
theorem observed_cost_decreases_daily_used :
    (updateAccountCreditsFromResponse { accA with dailyUsed := 10 }
      (some { periodLimit := "", periodCost := "5", requestCost := "",
              periodEnd := TimeHeader.absent }) 2 1000).dailyUsed = 5
    ∧ ¬ ((10 : ℚ) ≤ (updateAccountCreditsFromResponse { accA with dailyUsed := 10 }
      (some { periodLimit := "", periodCost := "5", requestCost := "",
              periodEnd := TimeHeader.absent }) 2 1000).dailyUsed) := by
  refine ⟨by decide, by decide⟩

lemma schedulerNextReset_spec (now : Int) :
    schedulerNextReset now % 86400 = 32940 ∧ now ≤ schedulerNextReset now := by
  unfold schedulerNextReset
  split_ifs with hgt <;> constructor <;> omega

/-- C8 (amended): `daily_used` is non-decreasing under synthetic
accounting (useCredit with a non-negative weight) but can be rewritten
downward by observed accounting (see the counterexample); the reset job
zeroes `daily_used` and records the reset date, is a no-op for a second
run on the same date (so it fires at most once per calendar day), and the
scheduler fires at 09:09:00 of the server-local day (offset 32940 s), not
at the UTC midnight boundary. -/
theorem daily_counter_reset_behavior (acc : Account) (mult : ℚ) (now : Int)
    (today : String) :
    (0 ≤ mult → acc.dailyUsed ≤ (useCredit acc mult now).dailyUsed)
    ∧ (acc.lastResetDate ≠ today →
        (resetAccountCredits acc today).dailyUsed = 0
        ∧ (resetAccountCredits acc today).lastResetDate = today)
    ∧ resetAccountCredits (resetAccountCredits acc today) today =
        resetAccountCredits acc today
    ∧ schedulerNextReset now % 86400 = 32940
    ∧ now ≤ schedulerNextReset now := by
  refine ⟨?_, ?_, ?_, (schedulerNextReset_spec now).1, (schedulerNextReset_spec now).2⟩
  · intro hm
    by_cases hq : acc.dailyUsed + mult ≥ planLimit acc.planType <;>
      simp [useCredit, hq] <;> linarith
  · intro hdate
    simp [resetAccountCredits, hdate]
  · by_cases hdate : acc.lastResetDate ≠ today
    · simp [resetAccountCredits, hdate]
    · simp [resetAccountCredits, hdate]

/-- C8 witness: the reset job on a stale account zeroes the counter and
stamps the date. -/
theorem daily_counter_reset_behavior_witness :
    (resetAccountCredits accA "2026-10-11").dailyUsed = 0
    ∧ (resetAccountCredits accA "2026-10-11").lastResetDate = "2026-10-11" :=
  (daily_counter_reset_behavior accA 0 0 "2026-10-11").2.1 (by decide)

/-- C9 counterexample: at exhaustion with a non-network last error the
anthropic orchestrator does not return the generic ErrNoAvailableAccount
value — it returns the "all retries failed" wrapper, and the gemini
orchestrator always does. -/
theorem exhaustion_error_not_generic :
    anthropicExhaustResult (RetryErr.apiError 500) =
      FinalErr.allRetriesFailed (RetryErr.apiError 500)
    ∧ anthropicExhaustResult (RetryErr.apiError 500) ≠ FinalErr.noAvailableAccount
    ∧ geminiExhaustResult (RetryErr.apiError 429) ≠ FinalErr.noAvailableAccount := by
  refine ⟨by decide, by decide, by decide⟩

/-- C9 (amended): at exhaustion the anthropic orchestrator returns either
the generic ErrNoAvailableAccount (exactly when the last error's text
matches the network-failure patterns) or the "all retries failed" wrapper
around the last internal classification; the gemini orchestrator always
returns the wrapper; the wrapper's message for an upstream-status
classification carries only the status code (concretely for 502), never
account identifiers, ban reasons or upstream bodies. -/
theorem exhaustion_error_classification (e : RetryErr) :
    (anthropicExhaustResult e = FinalErr.noAvailableAccount ∨
      anthropicExhaustResult e = FinalErr.allRetriesFailed e)
    ∧ (isNetworkErr (retryErrMsg e) = true →
        anthropicExhaustResult e = FinalErr.noAvailableAccount)
    ∧ (isNetworkErr (retryErrMsg e) = false →
        anthropicExhaustResult e = FinalErr.allRetriesFailed e)
    ∧ geminiExhaustResult e = FinalErr.allRetriesFailed e
    ∧ finalErrMsg (anthropicExhaustResult (RetryErr.apiError 502)) =
        "all retries failed: API error: 502" := by
  refine ⟨?_, ?_, ?_, rfl, by decide⟩
  · by_cases hn : isNetworkErr (retryErrMsg e)
    · left; simp [anthropicExhaustResult, hn]
    · right; simp [anthropicExhaustResult, hn]
  · intro hn; simp [anthropicExhaustResult, hn]
  · intro hn; simp [anthropicExhaustResult, hn]

/-- C9 witness: a transport error whose text contains "dial tcp" collapses
to the generic ErrNoAvailableAccount at exhaustion. -/
theorem exhaustion_error_classification_witness :
    anthropicExhaustResult
      (RetryErr.transport "dial tcp 1.2.3.4:443: connect: connection refused") =
      FinalErr.noAvailableAccount :=
  (exhaustion_error_classification
    (RetryErr.transport "dial tcp 1.2.3.4:443: connect: connection refused")).2.1
    (by decide)

/-- C10: a non-empty period-cost header whose parse yields 0 (in
particular any non-numeric text, since Sscanf leaves the output at 0)
passes the non-negativity acceptance check and overwrites `daily_used`
with 0, discarding the account's accumulated daily usage. -/
theorem junk_period_cost_zeroes_daily_used (acc : Account) (h : RespHeaders)
    (mult : ℚ) (now : Int) (hpc : h.periodCost ≠ "")
    (hz : parseFloat h.periodCost = 0) :
    (updateAccountCreditsFromResponse acc (some h) mult now).dailyUsed = 0 := by
  rw [update_dailyUsed_of_periodCost acc h mult now hpc (le_of_eq hz.symm)]
  exact hz

/-- C10 witness: the header text "abc" is non-empty, parses to 0, and an
account at 10 ends with `daily_used = 0`. -/
theorem junk_period_cost_zeroes_daily_used_witness :
    (updateAccountCreditsFromResponse { accA with dailyUsed := 10 }
      (some { periodLimit := "", periodCost := "abc", requestCost := "",
              periodEnd := TimeHeader.absent }) 2 1000).dailyUsed = 0 :=
  junk_period_cost_zeroes_daily_used { accA with dailyUsed := 10 }
    { periodLimit := "", periodCost := "abc", requestCost := "",
      periodEnd := TimeHeader.absent } 2 1000 (by decide) (by decide)

end Zencoder
